import Mathlib

/-!
Verification of the MyShop storefront core against its specification.

The JavaScript source is shallowly embedded in Lean:
JS strings become either Lean String or List Char (the latter where
splitting and parsing are reasoned about), JS numbers become Rat (the
monetary and stock arithmetic of the source stays within exact decimal
fractions), fallible or throwing code returns Except, and every database
round trip is made explicit by passing the stored collections as lists.
-/

namespace MyShop

/-- Characters of a JS string, used where the code splits or parses text. -/
abbrev Chars := List Char

/-! ## Decimal digit strings (String(timestamp) and Number(timestamp)) -/

/-- Character for one decimal digit. -/
def digitChar (d : Nat) : Char :=
  match d with
  | 0 => '0' | 1 => '1' | 2 => '2' | 3 => '3' | 4 => '4'
  | 5 => '5' | 6 => '6' | 7 => '7' | 8 => '8' | _ => '9'

/-- Numeric value of a digit character. -/
def charVal (c : Char) : Nat := c.toNat - 48

/-- Decimal digits of a number, least significant first. -/
def natDigitsRev (n : Nat) : List Char :=
  if h : n = 0 then [] else digitChar (n % 10) :: natDigitsRev (n / 10)
decreasing_by exact Nat.div_lt_self (Nat.pos_of_ne_zero h) (by norm_num)

/-- Embedding of String(n) for a natural number: its decimal digits. -/
def natDigits (n : Nat) : List Char :=
  if n = 0 then [digitChar 0] else (natDigitsRev n).reverse

/-- Value of a digit list, least significant digit first. -/
def valRevD : List Char → Nat
  | [] => 0
  | c :: cs => charVal c + 10 * valRevD cs

/-- Embedding of Number(s) restricted to the decimal digit strings that
String(Date.now()) produces; every other shape is none, which stands for
NaN (as in JS, every ordering comparison against it is false). -/
def parseNatChars (l : List Char) : Option Nat :=
  if l ≠ [] ∧ l.all Char.isDigit then
    some (l.foldl (fun a c => 10 * a + charVal c) 0)
  else none

/-- Embedding of s.split(sep) of JS for one separator character. -/
def splitChar (sep : Char) : List Char → List (List Char)
  | [] => [[]]
  | c :: cs =>
    match splitChar sep cs with
    | [] => [[]]
    | p :: ps => if c = sep then [] :: p :: ps else (c :: p) :: ps

/-! ## src/utils/csrf.js -/

/-- Embedding of generateCsrfToken from src/utils/csrf.js. Date.now() is the
parameter now (milliseconds), and the keyed hash primitive of the node
crypto library (an external collaborator of the repository) is the function
parameter hmacF, taking the secret and the message to digest. -/
def generateCsrfToken (hmacF : Chars → Chars → Chars) (secret : Chars)
    (now : Nat) : Chars :=
  natDigits now ++ ':' :: hmacF secret (natDigits now)

/-- Embedding of verifyCsrfToken from src/utils/csrf.js. The token is none
when the header is absent. The result is an Except whose error value models
a raised exception: crypto.timingSafeEqual throws when the two buffers
differ in byte length, and the source compares the received hash against
the recomputed digest without checking lengths first. -/
def verifyCsrfToken (hmacF : Chars → Chars → Chars) (secret : Chars)
    (token : Option Chars) (now : Nat) : Except Unit Bool :=
  match token with
  | none => .ok false
  | some tk =>
    if tk = [] then .ok false
    else
      let parts := splitChar ':' tk
      let timestamp := parts.headD []
      let hash := (parts.drop 1).headD []
      if timestamp = [] ∨ hash = [] then .ok false
      else
        let expected := hmacF secret timestamp
        if hash.length = expected.length then
          match parseNatChars timestamp with
          | none => .ok false
          | some ts =>
            .ok ((hash == expected) &&
              decide ((now : Int) - (ts : Int) < 60 * 60 * 1000))
        else .error ()

/-! ## Shared data model

Records held by the storage layer. Only the fields the embedded handlers
read or write appear; each database query is made explicit by passing the
stored collection as a list. -/

/-- Identity record of src/models/User.js together with the role and
soft-delete fields the admin handlers read and write. -/
structure DbUser where
  _id : String
  name : String
  email : String
  isAdmin : Bool
  isSuperAdmin : Bool
  isDeleted : Bool
  deletedAt : Option Int := none
  deletedBy : Option String := none
deriving DecidableEq

/-- Payload of the caller session token: the user id together with the role
claim cached in the token when it was issued. -/
structure SessionUser where
  _id : String
  isAdmin : Bool
deriving DecidableEq

/-- Embedding of User.findById. -/
def findById (users : List DbUser) (id : String) : Option DbUser :=
  users.find? (fun u => u._id == id)

/-! ## src/middleware/security.js -/

/-- Outcome of SecurityMiddleware.validateAdminAccess. -/
inductive AdminCheck where
  | unauthenticated
  | invalidSession
  | forbiddenAdmin
  | forbiddenSuperAdmin
  | valid (user : DbUser)
deriving DecidableEq

/-- Embedding of SecurityMiddleware.validateAdminAccess: the caller identity
is re-read from the identity store by the id carried in the session, and the
role flags of the stored record alone decide the outcome. -/
def validateAdminAccess (users : List DbUser) (session : Option SessionUser)
    (requireSuperAdmin : Bool) : AdminCheck :=
  match session with
  | none => .unauthenticated
  | some s =>
    match findById users s._id with
    | none => .invalidSession
    | some u =>
      if !u.isAdmin then .forbiddenAdmin
      else if requireSuperAdmin && !u.isSuperAdmin then .forbiddenSuperAdmin
      else .valid u

/-- Untrusted JS request values as the validator inspects them. -/
inductive JsValue where
  | str (s : String)
  | num (q : ℚ)
  | boolean (b : Bool)
deriving DecidableEq

/-- Embedding of the typeof operator on the modelled values. -/
def typeOf : JsValue → String
  | .str _ => "string"
  | .num _ => "number"
  | .boolean _ => "boolean"

/-- Embedding of JS truthiness for the modelled values. -/
def truthy : JsValue → Bool
  | .str s => !(s == "")
  | .num q => !(q == 0)
  | .boolean b => b

/-- Embedding of value.length: defined for strings, undefined otherwise. -/
def jsLen : JsValue → Option ℚ
  | .str s => some (s.length : ℚ)
  | _ => none

/-- Digits folded into their value, most significant first. -/
def digitsVal (l : List Char) : Nat :=
  l.foldl (fun a c => 10 * a + charVal c) 0

/-- Embedding of parseFloat on a string for the plain decimal numerals the
endpoints receive (optional sign, digits, optional fraction digits, any
trailing text ignored); exponent forms are outside the model. none stands
for NaN. -/
def parseFloatStr (s : String) : Option ℚ :=
  let l := s.data.dropWhile (fun c => c.isWhitespace)
  let sl := match l with
    | '-' :: r => ((-1 : ℚ), r)
    | '+' :: r => ((1 : ℚ), r)
    | _ => ((1 : ℚ), l)
  let ip := sl.2.takeWhile Char.isDigit
  let rest := sl.2.dropWhile Char.isDigit
  let fp := match rest with
    | '.' :: r => r.takeWhile Char.isDigit
    | _ => []
  if ip = [] ∧ fp = [] then none
  else some (sl.1 * ((digitsVal ip : ℚ) + (digitsVal fp : ℚ) / 10 ^ fp.length))

/-- Embedding of parseFloat on a modelled request value. -/
def jsParseFloat : JsValue → Option ℚ
  | .num q => some q
  | .boolean _ => none
  | .str s => parseFloatStr s

/-- Comparison against a possibly undefined number: every comparison with
undefined or NaN is false, as in JS. -/
def jsLtOpt (o : Option ℚ) (m : ℚ) : Bool :=
  match o with
  | some x => decide (x < m)
  | none => false

/-- Greater-than twin of jsLtOpt. -/
def jsGtOpt (o : Option ℚ) (m : ℚ) : Bool :=
  match o with
  | some x => decide (m < x)
  | none => false

/-- One rule of a validateParameters rule set. -/
structure Rule where
  required : Bool := false
  type : Option String := none
  minLength : Option ℚ := none
  maxLength : Option ℚ := none
  min : Option ℚ := none
  max : Option ℚ := none
  validate : Option (JsValue → Bool) := none
  message : Option String := none

/-- Decimal rendering of a natural number. -/
def natStr (n : Nat) : String := String.mk (natDigits n)

/-- Decimal rendering of an integer. -/
def intStr (i : Int) : String :=
  if i < 0 then ("-") ++ natStr i.natAbs else natStr i.natAbs

/-- Rendering of a rational rule bound inside an error message (the JS
source interpolates the number; integral bounds print as in JS). -/
def ratStr (q : ℚ) : String :=
  if q.den = 1 then intStr q.num else intStr q.num ++ ("/") ++ natStr q.den

/-- Embedding of req.body[field] || req.query[field]. -/
def jsOrVal (b q : Option JsValue) : Option JsValue :=
  match b with
  | some v => if truthy v then some v else q
  | none => q

/-- Embedding of the required-rule test (!value && value !== 0). -/
def requiredFails (value : Option JsValue) : Bool :=
  (match value with
   | none => true
   | some v => !truthy v) && decide (value ≠ some (JsValue.num 0))

/-- Embedding of rules.message || a default text. -/
def ruleMessage (field : String) (r : Rule) : String :=
  match r.message with
  | some m => if m ≠ "" then m else field ++ (" is invalid")
  | none => field ++ (" is invalid")

/-- Embedding of the per-field checks guarded by value !== undefined and
value !== null: each rule present on the field appends its own message. -/
def fieldChecks (field : String) (r : Rule) (value : Option JsValue) :
    List String :=
  match value with
  | none => []
  | some v =>
    (match r.type with
     | some t =>
       if (decide (t ≠ "") && decide (typeOf v ≠ t)) then
         [field ++ (" must be of type ") ++ t]
       else []
     | none => [])
    ++ (match r.minLength with
     | some m =>
       if (decide (m ≠ 0) && jsLtOpt (jsLen v) m) then
         [field ++ (" must be at least ") ++ ratStr m ++ (" characters")]
       else []
     | none => [])
    ++ (match r.maxLength with
     | some m =>
       if (decide (m ≠ 0) && jsGtOpt (jsLen v) m) then
         [field ++ (" must be at most ") ++ ratStr m ++ (" characters")]
       else []
     | none => [])
    ++ (match r.min with
     | some m =>
       if jsLtOpt (jsParseFloat v) m then
         [field ++ (" must be at least ") ++ ratStr m]
       else []
     | none => [])
    ++ (match r.max with
     | some m =>
       if jsGtOpt (jsParseFloat v) m then
         [field ++ (" must be at most ") ++ ratStr m]
       else []
     | none => [])
    ++ (match r.validate with
     | some f => if f v then [] else [ruleMessage field r]
     | none => [])

/-- Embedding of one iteration of the validateParameters loop: when the
required test fails the loop pushes one message and continues to the next
field, skipping the remaining rules of this one. -/
def fieldErrors (body query : String → Option JsValue) (fr : String × Rule) :
    List String :=
  let value := jsOrVal (body fr.1) (query fr.1)
  if fr.2.required && requiredFails value then [fr.1 ++ (" is required")]
  else fieldChecks fr.1 fr.2 value

/-- Result shape of SecurityMiddleware.validateParameters. -/
structure ValidationOutcome where
  isValid : Bool
  errors : List String

/-- Embedding of SecurityMiddleware.validateParameters: the rule set is the
entry list of the rules object, walked in order with one shared error
accumulator. -/
def validateParameters (body query : String → Option JsValue)
    (rules : List (String × Rule)) : ValidationOutcome :=
  let errors := rules.foldl (fun acc fr => acc ++ fieldErrors body query fr) []
  { isValid := errors.isEmpty, errors := errors }

/-- Claim-side reading of the spec sentence for one field: all rules for the
field are evaluated with no fail-fast, so a field violating several rules
contributes one message per violated rule. Built from the same primitive
checks as the embedding, differing only in not stopping after the required
message. -/
def specFieldViolations (body query : String → Option JsValue)
    (fr : String × Rule) : List String :=
  let value := jsOrVal (body fr.1) (query fr.1)
  (if fr.2.required && requiredFails value then [fr.1 ++ (" is required")]
   else [])
  ++ fieldChecks fr.1 fr.2 value

/-- Claim-side reading of the spec sentence for a whole rule set: the full
list of violations of all fields in one pass. -/
def specViolations (body query : String → Option JsValue)
    (rules : List (String × Rule)) : List String :=
  rules.flatMap (specFieldViolations body query)

/-! ## src/unnamed/part_001 (admin products route) -/

/-- Catalog item of the product model with the fields the embedded handlers
read. -/
structure Product where
  _id : String
  name : String
  slug : String
  image : String
  price : ℚ
  category : String
  brand : String
  countInStock : ℚ
  isDeleted : Bool
deriving DecidableEq

/-- Response of the admin products route of src/unnamed/part_001. -/
inductive AdminProductsResult where
  | invalidCsrf
  | adminRequired
  | serverError
  | productsList (ps : List Product)
  | createdProduct
  | methodNotAllowed
deriving DecidableEq

/-- Embedding of the handler of src/unnamed/part_001: after the anti-forgery
check it reads the role claim directly from the session token
(session.user.isAdmin) without consulting the identity store. A raised
exception from verifyCsrfToken surfaces as a server error. -/
def adminProductsHandler (hmacF : Chars → Chars → Chars) (secret : Chars)
    (now : Nat) (products : List Product) (csrfHeader : Option Chars)
    (session : Option SessionUser) (method : String) : AdminProductsResult :=
  match verifyCsrfToken hmacF secret csrfHeader now with
  | .error _ => .serverError
  | .ok false => .invalidCsrf
  | .ok true =>
    match session with
    | none => .adminRequired
    | some s =>
      if !s.isAdmin then .adminRequired
      else if method = "GET" then .productsList products
      else if method = "POST" then .createdProduct
      else .methodNotAllowed

/-! ## Order data model -/

/-- Payment confirmation stored on a paid order. -/
structure PaymentResult where
  id : String
  status : String
  email_address : String
  amount : ℚ
  currency : String
  payment_method : String
  transaction_time : Int
deriving DecidableEq

/-- Immutable order line snapshot built at checkout. -/
structure OrderItem where
  _id : String
  name : String
  slug : String
  image : String
  price : ℚ
  quantity : ℤ
  category : String
  brand : String
deriving DecidableEq

/-- Stored shipping address. -/
structure Address where
  fullName : String
  address : String
  city : String
  postalCode : String
  country : String
deriving DecidableEq

/-- Stored order record. -/
structure Order where
  _id : String
  user : String
  orderItems : List OrderItem
  shippingAddress : Address
  paymentMethod : String
  itemsPrice : ℚ
  taxPrice : ℚ
  shippingPrice : ℚ
  totalPrice : ℚ
  isPaid : Bool
  isDelivered : Bool
  status : String
  createdAt : Int
  paidAt : Option Int := none
  deliveredAt : Option Int := none
  deliveredBy : Option String := none
  deliveryNotes : Option String := none
  paymentResult : Option PaymentResult := none
deriving DecidableEq

/-! ## src/unnamed/part_000 (checkout: POST /api/orders) -/

/-- Embedding of Math.round to two decimals as the source computes it:
Math.round(x * 100) / 100, with Math.round(y) the floor of y + 1/2. -/
def round2 (q : ℚ) : ℚ := ((Int.floor (q * 100 + 1 / 2) : ℚ)) / 100

/-- Hexadecimal digit test of the identifier shape check. -/
def isHexDigit (c : Char) : Bool :=
  c.isDigit || (('a' ≤ c) && (c ≤ 'f')) || (('A' ≤ c) && (c ≤ 'F'))

/-- Embedding of isValidObjectId: a 24 character hexadecimal string. -/
def isValidObjectId (s : String) : Bool :=
  (s.length == 24) && s.data.all isHexDigit

/-- Embedding of String.prototype.trim. -/
def jsTrim (s : String) : String :=
  String.mk (((s.data.dropWhile fun c => c.isWhitespace).reverse.dropWhile
    fun c => c.isWhitespace).reverse)

/-- Embedding of s.substring(0, n). -/
def jsTake (s : String) (n : Nat) : String := String.mk (s.data.take n)

/-- One entry of the orderItems array of a checkout request. The price field
carries whatever price the client chose to send; the handler never reads
it. -/
structure ReqItem where
  _id : String
  quantity : ℚ
  price : Option ℚ := none
deriving DecidableEq

/-- Shipping address of a checkout request, each field an arbitrary request
value or absent. -/
structure ReqAddress where
  fullName : Option JsValue := none
  address : Option JsValue := none
  city : Option JsValue := none
  postalCode : Option JsValue := none
  country : Option JsValue := none

/-- Body of a checkout request. orderItems is none when absent or not an
array, paymentMethod none when absent or not a string. -/
structure CheckoutBody where
  orderItems : Option (List ReqItem) := none
  shippingAddress : Option ReqAddress := none
  paymentMethod : Option String := none

/-- Check of one shipping address field: present, a string, and nonempty
after trimming. -/
def addrFieldOk : Option JsValue → Bool
  | some (.str s) => !(s == "") && !(jsTrim s == "")
  | _ => false

/-- String content of a checked address field, trimmed and length capped as
stored. -/
def addrString (v : Option JsValue) (cap : Nat) : String :=
  match v with
  | some (.str s) => jsTake (jsTrim s) cap
  | _ => ""

/-- Embedding of the per-item catalog query: by id, skipping soft-deleted
items. -/
def findProduct (products : List Product) (id : String) : Option Product :=
  products.find? (fun p => (p._id == id) && !p.isDeleted)

/-- Failures of the per-item loop of the checkout handler. -/
inductive ItemFailure where
  | invalidItemData
  | productNotFound (id : String)
  | insufficientStock (name : String)
deriving DecidableEq

/-- Embedding of the per-item loop: shape check, catalog re-fetch, stock
check, accumulation of the server-priced total, the snapshot list and the
absolute stock values to write. Every iteration reads the same catalog
state, as the source fetches outside its transaction. -/
def processItems (products : List Product) :
    List ReqItem → Except ItemFailure (List OrderItem × List (String × ℚ) × ℚ)
  | [] => .ok ([], [], 0)
  | it :: rest =>
    if !isValidObjectId it._id || (it.quantity == 0)
        || decide (it.quantity < 1) || decide (100 < it.quantity) then
      .error .invalidItemData
    else
      match findProduct products it._id with
      | none => .error (.productNotFound it._id)
      | some p =>
        if p.countInStock < it.quantity then .error (.insufficientStock p.name)
        else
          match processItems products rest with
          | .error e => .error e
          | .ok (vs, us, s) =>
            .ok ({ _id := p._id, name := p.name, slug := p.slug,
                   image := p.image, price := p.price,
                   quantity := Int.floor it.quantity,
                   category := p.category, brand := p.brand } :: vs,
                 (p._id, p.countInStock - it.quantity) :: us,
                 p.price * it.quantity + s)

/-- Order document as the checkout handler builds it before the commit. -/
structure OrderDraft where
  orderItems : List OrderItem
  shippingAddress : Address
  paymentMethod : String
  itemsPrice : ℚ
  taxPrice : ℚ
  shippingPrice : ℚ
  totalPrice : ℚ
  user : String
  isPaid : Bool
  isDelivered : Bool
  status : String
deriving DecidableEq

/-- Outcome of the checkout handler up to the commit point. -/
inductive CheckoutResult where
  | invalidItems
  | invalidAddress
  | invalidPaymentMethod
  | invalidItemData
  | productNotFound (id : String)
  | insufficientStock (name : String)
  | created (order : OrderDraft) (stockUpdates : List (String × ℚ))
deriving DecidableEq

/-- Embedding of the checkout handler of src/unnamed/part_000 after
authentication: structural validation in source order, the per-item loop,
then the server-side price computation with taxRate 0.15, free shipping
from 200 and a flat fee of 25. -/
def createOrderCore (products : List Product) (userId : String)
    (body : CheckoutBody) : CheckoutResult :=
  match body.orderItems with
  | none => .invalidItems
  | some items =>
    if (items.length == 0) || decide (50 < items.length) then .invalidItems
    else
      match body.shippingAddress with
      | none => .invalidAddress
      | some addr =>
        match body.paymentMethod with
        | none => .invalidPaymentMethod
        | some pm =>
          if !(addrFieldOk addr.fullName && addrFieldOk addr.address
              && addrFieldOk addr.city && addrFieldOk addr.postalCode
              && addrFieldOk addr.country) then .invalidAddress
          else if !((pm == "PayPal") || (pm == "Stripe")
              || (pm == "CashOnDelivery")) then .invalidPaymentMethod
          else
            match processItems products items with
            | .error .invalidItemData => .invalidItemData
            | .error (.productNotFound i) => .productNotFound i
            | .error (.insufficientStock n) => .insufficientStock n
            | .ok (vs, us, itemsPrice) =>
              let taxPrice := round2 (itemsPrice * (15 / 100))
              let shippingPrice : ℚ := if 200 ≤ itemsPrice then 0 else 25
              let totalPrice := round2 (itemsPrice + taxPrice + shippingPrice)
              .created
                { orderItems := vs,
                  shippingAddress :=
                    { fullName := addrString addr.fullName 100,
                      address := addrString addr.address 200,
                      city := addrString addr.city 50,
                      postalCode := addrString addr.postalCode 20,
                      country := addrString addr.country 50 },
                  paymentMethod := jsTake (jsTrim pm) 50,
                  itemsPrice := itemsPrice, taxPrice := taxPrice,
                  shippingPrice := shippingPrice, totalPrice := totalPrice,
                  user := userId, isPaid := false, isDelivered := false,
                  status := ("pending") } us

/-- Claim-side reading of the spec: itemsPrice is the sum of server-held
product price times requested quantity over all items, none when some item
has no live product. -/
def specItemsPrice (products : List Product) : List ReqItem → Option ℚ
  | [] => some 0
  | it :: rest =>
    match findProduct products it._id, specItemsPrice products rest with
    | some p, some s => some (p.price * it.quantity + s)
    | _, _ => none

/-- A request item with its client price field cleared. -/
def stripItemPrice (it : ReqItem) : ReqItem := { it with price := none }

/-- A checkout body with every client price field cleared. -/
def stripClientPrices (b : CheckoutBody) : CheckoutBody :=
  { b with orderItems := b.orderItems.map (List.map stripItemPrice) }

/-- Shared storage state of the checkout commit phase. -/
structure ShopState where
  products : List Product
  orders : List Order
deriving DecidableEq

/-- Embedding of Product.findByIdAndUpdate writing an absolute stock
value. -/
def setStock (products : List Product) (id : String) (v : ℚ) : List Product :=
  products.map (fun p => if p._id == id then { p with countInStock := v } else p)

/-- Stored order built from a draft at commit time. -/
def draftToOrder (orderId : String) (now : Int) (d : OrderDraft) : Order :=
  { _id := orderId, user := d.user, orderItems := d.orderItems,
    shippingAddress := d.shippingAddress, paymentMethod := d.paymentMethod,
    itemsPrice := d.itemsPrice, taxPrice := d.taxPrice,
    shippingPrice := d.shippingPrice, totalPrice := d.totalPrice,
    isPaid := d.isPaid, isDelivered := d.isDelivered, status := d.status,
    createdAt := now }

/-- Embedding of the transaction body of the checkout handler: insert the
new order, then write each precomputed absolute stock value. The values
were computed from the catalog as read before the transaction opened. -/
def commitCheckout (st : ShopState) (orderId : String) (now : Int)
    (d : OrderDraft) (us : List (String × ℚ)) : ShopState :=
  { orders := st.orders ++ [draftToOrder orderId now d],
    products := us.foldl (fun ps u => setStock ps u.1 u.2) st.products }

/-- Catalog item used by the concrete checkout instances: one unit in
stock. -/
def sampleProduct : Product :=
  { _id := ("aaaaaaaaaaaaaaaaaaaaaaaa"), name := ("Last Unit"),
    slug := ("last-unit"), image := ("/img.png"), price := 100,
    category := ("cat"), brand := ("brand"), countInStock := 1,
    isDeleted := false }

/-- Well-formed shipping address used by the concrete checkout instances. -/
def sampleAddress : ReqAddress :=
  { fullName := some (.str ("A Buyer")), address := some (.str ("1 Road")),
    city := some (.str ("Town")), postalCode := some (.str ("00000")),
    country := some (.str ("LK")) }

/-- Checkout body ordering one unit of the sample product. -/
def sampleBody : CheckoutBody :=
  { orderItems := some [{ _id := ("aaaaaaaaaaaaaaaaaaaaaaaa"), quantity := 1 }],
    shippingAddress := some sampleAddress,
    paymentMethod := some ("PayPal") }

/-- Order draft the checkout handler builds for the sample body on behalf
of the given user: 100 of goods, 15 tax, 25 flat shipping, 140 total. -/
def sampleDraftFor (uid : String) : OrderDraft :=
  { orderItems :=
      [{ _id := ("aaaaaaaaaaaaaaaaaaaaaaaa"), name := ("Last Unit"),
         slug := ("last-unit"), image := ("/img.png"), price := 100,
         quantity := 1, category := ("cat"), brand := ("brand") }],
    shippingAddress :=
      { fullName := ("A Buyer"), address := ("1 Road"), city := ("Town"),
        postalCode := ("00000"), country := ("LK") },
    paymentMethod := ("PayPal"),
    itemsPrice := 100, taxPrice := 15, shippingPrice := 25, totalPrice := 140,
    user := uid, isPaid := false, isDelivered := false,
    status := ("pending") }

/-- Stock writes prepared for the sample body: the absolute value 0. -/
def sampleUpdates : List (String × ℚ) := [(("aaaaaaaaaaaaaaaaaaaaaaaa"), 0)]

/-! ## src/pages/api/orders/[id]/index.js (order fetch) -/

/-- Response body built by sanitizeOrderResponse. payer is the populated
owner identity (id, name, email); payer, paymentResult, deliveryNotes and
deliveredBy are only attached for admins. -/
structure SanitizedOrder where
  _id : String
  orderItems : List OrderItem
  shippingAddress : Address
  paymentMethod : String
  itemsPrice : ℚ
  taxPrice : ℚ
  shippingPrice : ℚ
  totalPrice : ℚ
  isPaid : Bool
  isDelivered : Bool
  status : String
  createdAt : Int
  paidAt : Option Int := none
  deliveredAt : Option Int := none
  payer : Option (String × String × String) := none
  paymentResult : Option PaymentResult := none
  deliveryNotes : Option String := none
  deliveredBy : Option String := none
deriving DecidableEq

/-- Embedding of sanitizeOrderResponse: the base fields for everyone, the
conditional timestamps, and the sensitive block (payer identity, payment
result, delivery metadata) for admins alone. -/
def sanitizeOrderResponse (order : Order) (owner : Option DbUser)
    (isAdmin : Bool) : SanitizedOrder :=
  { _id := order._id, orderItems := order.orderItems,
    shippingAddress := order.shippingAddress,
    paymentMethod := order.paymentMethod, itemsPrice := order.itemsPrice,
    taxPrice := order.taxPrice, shippingPrice := order.shippingPrice,
    totalPrice := order.totalPrice, isPaid := order.isPaid,
    isDelivered := order.isDelivered, status := order.status,
    createdAt := order.createdAt,
    paidAt := if order.isPaid then order.paidAt else none,
    deliveredAt := if order.isDelivered then order.deliveredAt else none,
    payer := if isAdmin then owner.map (fun u => (u._id, u.name, u.email))
      else none,
    paymentResult := if isAdmin then order.paymentResult else none,
    deliveryNotes := if isAdmin then order.deliveryNotes else none,
    deliveredBy := if isAdmin then order.deliveredBy else none }

/-- Response of the order fetch route. -/
inductive OrderViewResult where
  | methodNotAllowed
  | unauthenticated
  | invalidId
  | invalidSession
  | notFound (msg : String)
  | forbidden
  | ok (body : SanitizedOrder)
  | serverError
deriving DecidableEq

/-- Embedding of the GET handler of src/pages/api/orders/[id]/index.js:
admins query by id alone, other callers by id and owner together, the
not-found message masks whether the order exists for non-admins, and the
response is sanitized by role. A missing owner record makes the populated
user null and the handler fault (caught as a 500). -/
def getOrderHandler (users : List DbUser) (orders : List Order)
    (session : Option SessionUser) (qid : String) (method : String) :
    OrderViewResult :=
  if method ≠ "GET" then .methodNotAllowed
  else
    match session with
    | none => .unauthenticated
    | some s =>
      if !isValidObjectId qid then .invalidId
      else
        match findById users s._id with
        | none => .invalidSession
        | some u =>
          match (if u.isAdmin then orders.find? (fun o => o._id == qid)
            else orders.find? (fun o => (o._id == qid) && (o.user == s._id))) with
          | none =>
            .notFound (if u.isAdmin then ("Order not found")
              else ("Order not found or access denied"))
          | some order =>
            match findById users order.user with
            | none => .serverError
            | some owner =>
              if !u.isAdmin && !(order.user == s._id) then .forbidden
              else .ok (sanitizeOrderResponse order (some owner) u.isAdmin)

/-! ## src/pages/api/orders/[id]/pay.js (payment settlement) -/

/-- Payment confirmation payload of a pay request. -/
structure PayBody where
  id : Option String := none
  status : Option String := none
  email_address : Option String := none
  amount : Option ℚ := none

/-- Normalized payment fields the validator extracts. -/
structure PayData where
  id : Option String := none
  status : Option String := none
  email_address : Option String := none
deriving DecidableEq

/-- Result shape of validatePaymentData. -/
structure PayValidation where
  isValid : Bool
  errors : List String
  data : PayData

/-- Embedding of s.toLowerCase(). -/
def jsToLower (s : String) : String := String.mk (s.data.map Char.toLower)

/-- Embedding of the email test of the source: one at sign with nonempty
sides, no whitespace, and a dot strictly inside the domain part. -/
def emailOk (s : String) : Bool :=
  (s.data.all (fun c => !c.isWhitespace)) &&
  (match splitChar '@' s.data with
   | [l, d] => (!l.isEmpty) && ((d.drop 1).dropLast.contains '.')
   | _ => false)

/-- Embedding of validatePaymentData of src/pages/api/orders/[id]/pay.js:
transaction id length bounds, status from the allowed set, well-formed
payer email, and, when an amount field is present, its distance from the
server-computed order total may not exceed the 0.01 tolerance. -/
def validatePaymentData (pd : PayBody) (expectedAmount : ℚ) : PayValidation :=
  let idR : List String × Option String :=
    match pd.id with
    | some i =>
      if (i == "") || decide (i.length < 10) || decide (100 < i.length) then
        ([("Invalid payment transaction ID")], none)
      else ([], some (jsTrim i))
    | none => ([("Invalid payment transaction ID")], none)
  let stR : List String × Option String :=
    match pd.status with
    | some st =>
      if (st == "COMPLETED") || (st == "APPROVED") || (st == "CAPTURED") then
        ([], some st)
      else ([("Invalid payment status")], none)
    | none => ([("Invalid payment status")], none)
  let emR : List String × Option String :=
    match pd.email_address with
    | some em =>
      if (em == "") || !emailOk em then ([("Invalid email address")], none)
      else ([], some (jsTrim (jsToLower em)))
    | none => ([("Invalid email address")], none)
  let amR : List String :=
    match pd.amount with
    | some a =>
      if decide ((1 / 100 : ℚ) < |a - expectedAmount|) then
        [("Payment amount mismatch")]
      else []
    | none => []
  let errors := idR.1 ++ stR.1 ++ emR.1 ++ amR
  { isValid := errors.isEmpty, errors := errors,
    data := { id := idR.2, status := stR.2, email_address := emR.2 } }

/-- Outcome of the pay route. -/
inductive PayOutcome where
  | methodNotAllowed
  | unauthenticated
  | invalidId
  | invalidSession
  | orderNotFound
  | alreadyPaid
  | cancelledOrder
  | expired
  | validationFailed (errors : List String)
  | duplicateTransaction
  | paid (orderId : String) (totalPaid : ℚ) (paymentId : String)
deriving DecidableEq

/-- Result of the pay route: the response, the stored orders afterwards,
and the security violation events written to the audit sink (the duplicate
transaction rejection logs one; ordinary validation failures log none). -/
structure PayEffect where
  outcome : PayOutcome
  orders : List Order
  securityViolations : List String
deriving DecidableEq

/-- Embedding of the PUT handler of src/pages/api/orders/[id]/pay.js:
owner-scoped lookup, state preconditions (already paid, cancelled, the 24
hour unpaid expiry), payload validation against the stored total, the scan
of all orders for a prior use of the submitted transaction id (rejected and
logged as a security violation when found), and the commit writing the
amount from the order itself. -/
def payOrderHandler (users : List DbUser) (orders : List Order)
    (session : Option SessionUser) (qid : String) (body : PayBody)
    (now : Int) (method : String) : PayEffect :=
  if method ≠ "PUT" then ⟨.methodNotAllowed, orders, []⟩
  else
    match session with
    | none => ⟨.unauthenticated, orders, []⟩
    | some s =>
      if !isValidObjectId qid then ⟨.invalidId, orders, []⟩
      else
        match findById users s._id with
        | none => ⟨.invalidSession, orders, []⟩
        | some _u =>
          match orders.find? (fun o => (o._id == qid) && (o.user == s._id)) with
          | none => ⟨.orderNotFound, orders, []⟩
          | some order =>
            if order.isPaid then ⟨.alreadyPaid, orders, []⟩
            else if order.status == "cancelled" then
              ⟨.cancelledOrder, orders, []⟩
            else if decide (86400000 < now - order.createdAt)
                && !order.isPaid then ⟨.expired, orders, []⟩
            else
              let v := validatePaymentData body order.totalPrice
              if !v.isValid then ⟨.validationFailed v.errors, orders, []⟩
              else
                let tid := v.data.id.getD ""
                match orders.find? (fun o2 =>
                    (match o2.paymentResult with
                     | some pr => pr.id == tid
                     | none => false) && !(o2._id == order._id)) with
                | some _ =>
                  ⟨.duplicateTransaction, orders,
                   [("duplicate_payment_attempt")]⟩
                | none =>
                  ⟨.paid order._id order.totalPrice tid,
                   orders.map (fun o2 =>
                     if o2._id == order._id then
                       { order with
                         isPaid := true, paidAt := some now,
                         paymentResult := some
                           { id := tid, status := v.data.status.getD "",
                             email_address := v.data.email_address.getD "",
                             amount := order.totalPrice,
                             currency := ("INR"),
                             payment_method := ("PayPal"),
                             transaction_time := now },
                         status := ("paid") }
                     else o2),
                   []⟩

/-- Uniqueness invariant of claim C4: stored order ids are distinct, and no
two distinct orders carry the same paymentResult id. -/
def paymentIdsOk (orders : List Order) : Prop :=
  (orders.map (fun o => o._id)).Nodup
  ∧ ∀ o1 ∈ orders, ∀ o2 ∈ orders, ∀ p1 p2,
      o1.paymentResult = some p1 → o2.paymentResult = some p2 →
      o1._id ≠ o2._id → p1.id ≠ p2.id

/-! ## Concrete records for the order view and payment instances -/

/-- Authenticated non-admin caller of the order view instances. -/
def viewCaller : DbUser :=
  { _id := ("u1"), name := ("Caller"), email := ("caller@shop.io"),
    isAdmin := false, isSuperAdmin := false, isDeleted := false }

/-- Admin caller of the order view instances. -/
def viewAdmin : DbUser :=
  { _id := ("u3"), name := ("Admin"), email := ("admin@shop.io"),
    isAdmin := true, isSuperAdmin := false, isDeleted := false }

/-- Owner of the viewed order. -/
def viewOwner : DbUser :=
  { _id := ("u2"), name := ("Owner"), email := ("owner@shop.io"),
    isAdmin := false, isSuperAdmin := false, isDeleted := false }

/-- Stored payment confirmation of the viewed order. -/
def viewPayment : PaymentResult :=
  { id := ("TXVIEW00012345"), status := ("COMPLETED"),
    email_address := ("owner@shop.io"), amount := 140, currency := ("INR"),
    payment_method := ("PayPal"), transaction_time := 5 }

/-- Paid order owned by viewOwner. -/
def viewOrder : Order :=
  { _id := ("bbbbbbbbbbbbbbbbbbbbbbbb"), user := ("u2"), orderItems := [],
    shippingAddress :=
      { fullName := ("A Buyer"), address := ("1 Road"), city := ("Town"),
        postalCode := ("00000"), country := ("LK") },
    paymentMethod := ("PayPal"), itemsPrice := 100, taxPrice := 15,
    shippingPrice := 25, totalPrice := 140, isPaid := true,
    isDelivered := false, status := ("paid"), createdAt := 0,
    paidAt := some 5, paymentResult := some viewPayment }

/-- Caller of the payment instances. -/
def payUser : DbUser :=
  { _id := ("u9"), name := ("Payer"), email := ("payer@shop.io"),
    isAdmin := false, isSuperAdmin := false, isDeleted := false }

/-- Pending order of the payment instances, totalling 230. -/
def payTarget : Order :=
  { _id := ("cccccccccccccccccccccccc"), user := ("u9"), orderItems := [],
    shippingAddress :=
      { fullName := ("A Buyer"), address := ("1 Road"), city := ("Town"),
        postalCode := ("00000"), country := ("LK") },
    paymentMethod := ("PayPal"), itemsPrice := 200, taxPrice := 30,
    shippingPrice := 0, totalPrice := 230, isPaid := false,
    isDelivered := false, status := ("pending"), createdAt := 0 }

/-- Well-formed payment payload carrying the given amount. -/
def goodPayBody (amt : ℚ) : PayBody :=
  { id := some ("TX1234567890"), status := some ("COMPLETED"),
    email_address := some ("payer@shop.io"), amount := some amt }

/-! ## src/unnamed/part_002 (admin users route, delete branch) -/

/-- Count of non-deleted super-admin identities, the User.countDocuments
query of the last-super-admin guard. -/
def superAdminCount (users : List DbUser) : Nat :=
  users.countP (fun u => u.isSuperAdmin && !u.isDeleted)

/-- Count of paid undelivered orders of one user, the Order.countDocuments
query of the active-order guard. -/
def activeOrderCount (orders : List Order) (uid : String) : Nat :=
  orders.countP (fun o => o.user == uid && o.isPaid && !o.isDelivered)

/-- Outcome of the delete branch of the admin users route. -/
inductive UserDeleteResult where
  | notFound
  | forbiddenSuperAdmin
  | selfDeletion
  | lastSuperAdmin
  | activeOrders (n : Nat)
  | deleted (id : String)
deriving DecidableEq

/-- Soft delete applied to the target record: the email is anonymized with a
timestamp marker and the audit fields are set. -/
def markDeleted (u : DbUser) (adminId : String) (now : Nat) : DbUser :=
  { u with
    isDeleted := true,
    deletedAt := some (now : Int),
    deletedBy := some adminId,
    email := ("deleted_") ++ natStr now ++ ("_") ++ u.email }

/-- Embedding of deleteHandler of src/unnamed/part_002, reached with a
requesting admin already re-read from the identity store. The role
hierarchy block of the source, the last-super-admin guard included, runs
only when the target record has isAdmin set. -/
def deleteUserHandler (users : List DbUser) (orders : List Order)
    (requestingAdmin : DbUser) (qid : String) (now : Nat) :
    UserDeleteResult × List DbUser :=
  match findById users qid with
  | none => (.notFound, users)
  | some target =>
    if target.isDeleted then (.notFound, users)
    else if target.isAdmin && !requestingAdmin.isSuperAdmin then
      (.forbiddenSuperAdmin, users)
    else if target.isAdmin && (target._id == requestingAdmin._id) then
      (.selfDeletion, users)
    else if target.isAdmin && target.isSuperAdmin
        && decide (superAdminCount users ≤ 1) then
      (.lastSuperAdmin, users)
    else if 0 < activeOrderCount orders qid then
      (.activeOrders (activeOrderCount orders qid), users)
    else
      (.deleted target._id,
        users.map (fun u =>
          if u._id == target._id then markDeleted u requestingAdmin._id now
          else u))

end MyShop

namespace MyShop

/-! ## Lemmas on digit strings and splitting -/

theorem charVal_digitChar (d : Nat) (h : d < 10) : charVal (digitChar d) = d := by
  interval_cases d <;> rfl

theorem isDigit_digitChar (d : Nat) : (digitChar d).isDigit = true := by
  unfold digitChar
  split <;> rfl

theorem natDigitsRev_all_digit (n : Nat) :
    ∀ c ∈ natDigitsRev n, c.isDigit = true := by
  induction n using Nat.strong_induction_on with
  | _ n ih =>
    intro c hc
    rw [natDigitsRev] at hc
    by_cases h : n = 0
    · simp [h] at hc
    · simp only [h, dite_false] at hc
      rcases List.mem_cons.mp hc with h1 | h1
      · subst h1; exact isDigit_digitChar _
      · exact ih (n / 10) (Nat.div_lt_self (Nat.pos_of_ne_zero h) (by norm_num)) c h1

theorem natDigitsRev_ne_nil (n : Nat) (h : n ≠ 0) : natDigitsRev n ≠ [] := by
  rw [natDigitsRev]
  simp [h]

theorem natDigits_ne_nil (n : Nat) : natDigits n ≠ [] := by
  unfold natDigits
  by_cases h : n = 0
  · simp [h]
  · simp only [h, if_false, ne_eq, List.reverse_eq_nil_iff]
    exact natDigitsRev_ne_nil n h

theorem natDigits_all_digit (n : Nat) :
    ∀ c ∈ natDigits n, c.isDigit = true := by
  intro c hc
  unfold natDigits at hc
  by_cases h : n = 0
  · simp [h] at hc
    subst hc; rfl
  · simp only [h, if_false, List.mem_reverse] at hc
    exact natDigitsRev_all_digit n c hc

theorem colon_not_mem_natDigits (n : Nat) : ':' ∉ natDigits n := by
  intro hc
  have := natDigits_all_digit n _ hc
  simp [Char.isDigit] at this

theorem valRevD_natDigitsRev (n : Nat) : valRevD (natDigitsRev n) = n := by
  induction n using Nat.strong_induction_on with
  | _ n ih =>
    rw [natDigitsRev]
    by_cases h : n = 0
    · simp [h, valRevD]
    · simp only [h, dite_false, valRevD]
      rw [ih (n / 10) (Nat.div_lt_self (Nat.pos_of_ne_zero h) (by norm_num))]
      rw [charVal_digitChar _ (Nat.mod_lt n (by norm_num))]
      exact Nat.mod_add_div n 10

theorem foldl_reverse_val (l : List Char) (a : Nat) :
    List.foldl (fun a c => 10 * a + charVal c) a l.reverse
      = a * 10 ^ l.length + valRevD l := by
  induction l generalizing a with
  | nil => simp [valRevD]
  | cons c cs ih =>
    simp only [List.reverse_cons, List.foldl_append, List.foldl_cons,
      List.foldl_nil, ih, valRevD, List.length_cons]
    ring

theorem parseNatChars_natDigits (n : Nat) :
    parseNatChars (natDigits n) = some n := by
  unfold parseNatChars
  have hne : natDigits n ≠ [] := natDigits_ne_nil n
  have hall : (natDigits n).all Char.isDigit = true := by
    rw [List.all_eq_true]
    exact natDigits_all_digit n
  rw [if_pos ⟨hne, hall⟩]
  unfold natDigits
  by_cases h : n = 0
  · simp [h, charVal, digitChar]
  · simp only [h, if_false]
    rw [foldl_reverse_val]
    simp [valRevD_natDigitsRev, h]

theorem splitChar_no_sep (sep : Char) (l : List Char) (h : sep ∉ l) :
    splitChar sep l = [l] := by
  induction l with
  | nil => rfl
  | cons c cs ih =>
    have hc : c ≠ sep := fun hcs => h (hcs ▸ List.mem_cons_self c cs)
    have hcs : sep ∉ cs := fun hm => h (List.mem_cons_of_mem c hm)
    simp [splitChar, ih hcs, hc]

theorem splitChar_pair (sep : Char) (a b : List Char)
    (ha : sep ∉ a) (hb : sep ∉ b) :
    splitChar sep (a ++ sep :: b) = [a, b] := by
  induction a with
  | nil => simp [splitChar, splitChar_no_sep sep b hb]
  | cons c cs ih =>
    have hc : c ≠ sep := fun hcs => ha (hcs ▸ List.mem_cons_self c cs)
    have hcs : sep ∉ cs := fun hm => ha (List.mem_cons_of_mem c hm)
    rw [List.cons_append]
    simp only [splitChar]
    rw [ih hcs]
    simp [hc]

/-! ## Claim theorems for the anti-forgery token service -/

/-- Claim C10: every token produced by generateCsrfToken is accepted by
verifyCsrfToken (it returns true and does not throw) when verified with the
same secret and digest primitive at any time less than one hour after
generation. The digest primitive is assumed to produce a nonempty string
without a colon, as the hexadecimal digest of the source does. -/
theorem csrf_generate_verify_round_trip
    (hmacF : Chars → Chars → Chars) (secret : Chars) (t tv : Nat)
    (hcolon : ':' ∉ hmacF secret (natDigits t))
    (hne : hmacF secret (natDigits t) ≠ [])
    (hle : t ≤ tv) (hwin : (tv : Int) - (t : Int) < 60 * 60 * 1000) :
    verifyCsrfToken hmacF secret (some (generateCsrfToken hmacF secret t)) tv
      = .ok true := by
  simp [verifyCsrfToken, generateCsrfToken,
    splitChar_pair ':' _ _ (colon_not_mem_natDigits t) hcolon,
    natDigits_ne_nil t, hne, parseNatChars_natDigits]
  omega

/-- Concrete instance discharging the hypotheses of the round trip theorem. -/
theorem csrf_generate_verify_round_trip_witness :
    verifyCsrfToken (fun _ _ => ['a']) [] (some (generateCsrfToken (fun _ _ => ['a']) [] 0)) 5
      = .ok true :=
  csrf_generate_verify_round_trip (fun _ _ => ['a']) [] 0 5
    (by decide) (by decide) (by decide) (by decide)

/-- Claim C8: the claim asserts verification returns false, without raising,
on every malformed token. The embedded code instead raises (the error of the
Except) on a well split token whose hash part differs in length from the
recomputed digest, because crypto.timingSafeEqual throws on buffers of
unequal byte length. -/
theorem csrf_verify_raises_on_short_hash :
    verifyCsrfToken (fun _ _ => List.replicate 64 'a') []
      (some (("1234567890:abc").data)) 99 = .error () := by
  rfl

/-! ## Claim theorems for the authorization gate -/

/-- Claim C5 (amended): the authorization gate of the security middleware
derives its decision from the stored identity record alone; two sessions
carrying the same user id receive the same outcome whatever role claims
they cache. The admin products route of src/unnamed/part_001 is the
exception recorded in the counterexample. -/
theorem validateAdminAccess_ignores_token_role_claims
    (users : List DbUser) (s1 s2 : SessionUser) (req : Bool)
    (h : s1._id = s2._id) :
    validateAdminAccess users (some s1) req
      = validateAdminAccess users (some s2) req := by
  simp only [validateAdminAccess, findById, h]

/-- Concrete instance discharging the hypothesis of the gate theorem. -/
theorem validateAdminAccess_ignores_token_role_claims_witness :
    validateAdminAccess [] (some { _id := ("u1"), isAdmin := true }) false
      = validateAdminAccess [] (some { _id := ("u1"), isAdmin := false }) false :=
  validateAdminAccess_ignores_token_role_claims []
    { _id := ("u1"), isAdmin := true } { _id := ("u1"), isAdmin := false }
    false rfl

/-- Claim C5 counterexample: the admin products route decides from the role
claim cached in the session token, so two requests with the same user id
and different cached claims get different outcomes there. -/
theorem adminProducts_trusts_token_role_claim :
    ({ _id := ("u1"), isAdmin := true } : SessionUser)._id
        = ({ _id := ("u1"), isAdmin := false } : SessionUser)._id
    ∧ adminProductsHandler (fun _ _ => ['a']) [] 5 []
        (some ['0', ':', 'a']) (some { _id := ("u1"), isAdmin := true }) ("GET")
      ≠ adminProductsHandler (fun _ _ => ['a']) [] 5 []
        (some ['0', ':', 'a']) (some { _id := ("u1"), isAdmin := false }) ("GET") := by
  decide

/-! ## Claim theorems for the parameter validator -/

/-- Claim C9 (amended): the validator walks every field of the rule set with
no fail-fast across fields, each field contributing its own violations to
one shared list; valid is true exactly when that list is empty; and for
every field whose required test passes, the full list of violated rules of
that field is reported, one message per violated rule. When the required
test fails for a field, the remaining rules of that field are skipped, as
the counterexample records. -/
theorem validateParameters_characterization
    (body query : String → Option JsValue) (rules : List (String × Rule)) :
    (validateParameters body query rules).errors
        = rules.flatMap (fieldErrors body query)
    ∧ ((validateParameters body query rules).isValid = true
        ↔ (validateParameters body query rules).errors = [])
    ∧ ∀ fr : String × Rule,
        (fr.2.required && requiredFails (jsOrVal (body fr.1) (query fr.1))) = false →
        fieldErrors body query fr = specFieldViolations body query fr := by
  refine ⟨?_, ?_, ?_⟩
  · have key : ∀ (rs : List (String × Rule)) (acc : List String),
        rs.foldl (fun acc fr => acc ++ fieldErrors body query fr) acc
          = acc ++ rs.flatMap (fieldErrors body query) := by
      intro rs
      induction rs with
      | nil => intro acc; simp
      | cons fr rest ih =>
        intro acc
        simp only [List.foldl_cons, ih, List.flatMap_cons, List.append_assoc]
    simpa using key rules []
  · simp [validateParameters, List.isEmpty_iff]
  · intro fr h
    simp only [fieldErrors, specFieldViolations, h, Bool.false_eq_true,
      if_false, List.nil_append]

/-- Concrete instance applying the validator characterization. -/
theorem validateParameters_characterization_witness :
    (validateParameters (fun _ => none) (fun _ => none) []).errors
      = ([] : List (String × Rule)).flatMap
          (fieldErrors (fun _ => none) (fun _ => none)) :=
  (validateParameters_characterization (fun _ => none) (fun _ => none) []).1

/-- Claim C9 counterexample: a field violating both its required rule and
its minLength rule contributes only the required message, not one message
per violated rule, so the returned list is not the full violation list. -/
theorem validateParameters_skips_rules_after_required :
    (validateParameters (fun _ => none)
        (fun f => if f = ("name") then some (.str "") else none)
        [(("name"), { required := true, minLength := some 3 })]).errors
      ≠ specViolations (fun _ => none)
        (fun f => if f = ("name") then some (.str "") else none)
        [(("name"), { required := true, minLength := some 3 })] := by
  decide

/-! ## Claim theorems for the role hierarchy enforcer -/

/-- Claim C7: deleting the sole remaining non-deleted super-admin identity
is always rejected. The embedded delete handler runs its last-super-admin
guard only inside the role hierarchy block for targets with isAdmin set, so
a sole super-admin record whose isAdmin flag is clear is soft deleted, and
afterwards no non-deleted identity holds isSuperAdmin. -/
theorem deleteUser_removes_last_superAdmin :
    superAdminCount
        [{ _id := ("a1"), name := ("root admin"), email := ("root@shop.io"),
           isAdmin := true, isSuperAdmin := false, isDeleted := false },
         { _id := ("b2"), name := ("sole super"), email := ("super@shop.io"),
           isAdmin := false, isSuperAdmin := true, isDeleted := false }] = 1
    ∧ (deleteUserHandler
        [{ _id := ("a1"), name := ("root admin"), email := ("root@shop.io"),
           isAdmin := true, isSuperAdmin := false, isDeleted := false },
         { _id := ("b2"), name := ("sole super"), email := ("super@shop.io"),
           isAdmin := false, isSuperAdmin := true, isDeleted := false }] []
        { _id := ("a1"), name := ("root admin"), email := ("root@shop.io"),
          isAdmin := true, isSuperAdmin := false, isDeleted := false }
        ("b2") 0).1 = .deleted ("b2")
    ∧ superAdminCount (deleteUserHandler
        [{ _id := ("a1"), name := ("root admin"), email := ("root@shop.io"),
           isAdmin := true, isSuperAdmin := false, isDeleted := false },
         { _id := ("b2"), name := ("sole super"), email := ("super@shop.io"),
           isAdmin := false, isSuperAdmin := true, isDeleted := false }] []
        { _id := ("a1"), name := ("root admin"), email := ("root@shop.io"),
          isAdmin := true, isSuperAdmin := false, isDeleted := false }
        ("b2") 0).2 = 0 := by
  decide

/-! ## Lemmas on the checkout item loop -/

theorem processItems_spec_price (products : List Product) :
    ∀ (items : List ReqItem) (vs : List OrderItem) (us : List (String × ℚ))
      (s : ℚ), processItems products items = .ok (vs, us, s) →
      specItemsPrice products items = some s := by
  intro items
  induction items with
  | nil =>
    intro vs us s h
    simp only [processItems, Except.ok.injEq, Prod.mk.injEq] at h
    simp [specItemsPrice, h.2.2.symm]
  | cons it rest ih =>
    intro vs us s h
    simp only [processItems] at h
    by_cases hshape : (!isValidObjectId it._id || it.quantity == 0
        || decide (it.quantity < 1) || decide (100 < it.quantity)) = true
    · simp [hshape] at h
    · simp only [hshape, Bool.false_eq_true, if_false] at h
      cases hf : findProduct products it._id with
      | none => simp [hf] at h
      | some p =>
        simp only [hf] at h
        by_cases hst : p.countInStock < it.quantity
        · simp [hst] at h
        · simp only [if_neg hst] at h
          cases hr : processItems products rest with
          | error e => simp [hr] at h
          | ok t =>
            obtain ⟨vs1, us1, s1⟩ := t
            simp only [hr, Except.ok.injEq, Prod.mk.injEq] at h
            simp [specItemsPrice, hf, ih vs1 us1 s1 hr, h.2.2.symm]

theorem processItems_strip (products : List Product) (items : List ReqItem) :
    processItems products (items.map stripItemPrice)
      = processItems products items := by
  induction items with
  | nil => rfl
  | cons it rest ih =>
    simp only [List.map_cons, processItems, stripItemPrice, ih]

theorem createOrderCore_strip (products : List Product) (userId : String)
    (b : CheckoutBody) :
    createOrderCore products userId (stripClientPrices b)
      = createOrderCore products userId b := by
  obtain ⟨oi, sa, pm⟩ := b
  cases oi with
  | none => rfl
  | some items =>
    simp only [createOrderCore, stripClientPrices, Option.map_some',
      List.length_map, processItems_strip]

/-! ## Claim theorems for the order transaction processor -/

/-- Claim C1: every created order prices itself from the server-held catalog
alone: totalPrice is round2 of itemsPrice + taxPrice + shippingPrice,
taxPrice is round2 of itemsPrice times 0.15, shippingPrice is 0 from 200 of
goods and 25 below, itemsPrice is the sum of stored product price times
requested quantity, and the client price fields of the request are
irrelevant to the outcome. -/
theorem checkout_totals (products : List Product) (userId : String)
    (body : CheckoutBody) (o : OrderDraft) (us : List (String × ℚ))
    (h : createOrderCore products userId body = .created o us) :
    o.totalPrice = round2 (o.itemsPrice + o.taxPrice + o.shippingPrice)
    ∧ o.taxPrice = round2 (o.itemsPrice * (15 / 100))
    ∧ o.shippingPrice = (if 200 ≤ o.itemsPrice then (0 : ℚ) else 25)
    ∧ (∀ items, body.orderItems = some items →
        specItemsPrice products items = some o.itemsPrice)
    ∧ (∀ body2, stripClientPrices body2 = stripClientPrices body →
        createOrderCore products userId body2 = .created o us) := by
  have horig := h
  simp only [createOrderCore] at h
  cases hoi : body.orderItems with
  | none => simp [hoi] at h
  | some items =>
    simp only [hoi] at h
    by_cases hlen : (items.length == 0 || decide (50 < items.length)) = true
    · simp [hlen] at h
    · simp only [hlen, Bool.false_eq_true, if_false] at h
      cases hsa : body.shippingAddress with
      | none => simp [hsa] at h
      | some addr =>
        simp only [hsa] at h
        cases hpm : body.paymentMethod with
        | none => simp [hpm] at h
        | some pm =>
          simp only [hpm] at h
          by_cases haddr : (!(addrFieldOk addr.fullName
              && addrFieldOk addr.address && addrFieldOk addr.city
              && addrFieldOk addr.postalCode
              && addrFieldOk addr.country)) = true
          · simp [haddr] at h
          · simp only [haddr, Bool.false_eq_true, if_false] at h
            by_cases hmeth : (!((pm == "PayPal") || (pm == "Stripe")
                || (pm == "CashOnDelivery"))) = true
            · simp [hmeth] at h
            · simp only [hmeth, Bool.false_eq_true, if_false] at h
              cases hpi : processItems products items with
              | error e =>
                cases e <;> simp [hpi] at h
              | ok t =>
                obtain ⟨vs, us1, ip⟩ := t
                simp only [hpi, CheckoutResult.created.injEq] at h
                obtain ⟨ho, hus⟩ := h
                refine ⟨?_, ?_, ?_, ?_, ?_⟩
                · rw [← ho]
                · rw [← ho]
                · rw [← ho]
                · intro items0 h0
                  cases h0
                  rw [← ho]
                  exact processItems_spec_price products items vs us1 ip hpi
                · intro body2 h2
                  calc createOrderCore products userId body2
                      = createOrderCore products userId
                          (stripClientPrices body2) :=
                        (createOrderCore_strip products userId body2).symm
                    _ = createOrderCore products userId
                          (stripClientPrices body) := by rw [h2]
                    _ = createOrderCore products userId body :=
                        createOrderCore_strip products userId body
                    _ = .created o us := horig

/-- Concrete instance of the pricing theorem: one unit at 100 gives 15 tax,
25 shipping and 140 total. -/
theorem checkout_totals_witness :
    (sampleDraftFor ("u1")).totalPrice
        = round2 ((sampleDraftFor ("u1")).itemsPrice
            + (sampleDraftFor ("u1")).taxPrice
            + (sampleDraftFor ("u1")).shippingPrice)
    ∧ (sampleDraftFor ("u1")).taxPrice
        = round2 ((sampleDraftFor ("u1")).itemsPrice * (15 / 100))
    ∧ (sampleDraftFor ("u1")).shippingPrice
        = (if 200 ≤ (sampleDraftFor ("u1")).itemsPrice then (0 : ℚ) else 25)
    ∧ (∀ items, sampleBody.orderItems = some items →
        specItemsPrice [sampleProduct] items
          = some (sampleDraftFor ("u1")).itemsPrice)
    ∧ (∀ body2, stripClientPrices body2 = stripClientPrices sampleBody →
        createOrderCore [sampleProduct] ("u1") body2
          = .created (sampleDraftFor ("u1")) sampleUpdates) :=
  checkout_totals [sampleProduct] ("u1") sampleBody (sampleDraftFor ("u1"))
    sampleUpdates
    (by norm_num +decide [createOrderCore, processItems, sampleBody,
      sampleProduct, sampleAddress, sampleDraftFor, sampleUpdates,
      findProduct, isValidObjectId, isHexDigit, addrFieldOk, addrString,
      jsTrim, jsTake, round2])

/-- Claim C2: two checkouts competing for the last unit of the sample
product, each validated against the catalog before either commit runs (the
source checks stock and computes the absolute replacement values outside
its transaction), both succeed; after both commits the store holds two
orders selling two units of a supply of one, with neither request rejected
for insufficient stock. -/
theorem checkout_race_oversells :
    sampleProduct.countInStock = 1
    ∧ createOrderCore [sampleProduct] ("u1") sampleBody
        = .created (sampleDraftFor ("u1")) sampleUpdates
    ∧ createOrderCore [sampleProduct] ("u2") sampleBody
        = .created (sampleDraftFor ("u2")) sampleUpdates
    ∧ (commitCheckout
        (commitCheckout { products := [sampleProduct], orders := [] }
          ("o1") 0 (sampleDraftFor ("u1")) sampleUpdates)
        ("o2") 0 (sampleDraftFor ("u2")) sampleUpdates).orders.length = 2
    ∧ (commitCheckout
        (commitCheckout { products := [sampleProduct], orders := [] }
          ("o1") 0 (sampleDraftFor ("u1")) sampleUpdates)
        ("o2") 0 (sampleDraftFor ("u2")) sampleUpdates).products
        = [{ sampleProduct with countInStock := 0 }] := by
  refine ⟨by norm_num [sampleProduct], ?_, ?_, ?_, ?_⟩
  · norm_num +decide [createOrderCore, processItems, sampleBody,
      sampleProduct, sampleAddress, sampleDraftFor, sampleUpdates,
      findProduct, isValidObjectId, isHexDigit, addrFieldOk, addrString,
      jsTrim, jsTake, round2]
  · norm_num +decide [createOrderCore, processItems, sampleBody,
      sampleProduct, sampleAddress, sampleDraftFor, sampleUpdates,
      findProduct, isValidObjectId, isHexDigit, addrFieldOk, addrString,
      jsTrim, jsTake, round2]
  · norm_num +decide [commitCheckout, sampleUpdates, setStock,
      sampleProduct, sampleDraftFor, draftToOrder]
  · norm_num +decide [commitCheckout, sampleUpdates, setStock,
      sampleProduct, sampleDraftFor, draftToOrder]

/-! ## Claim theorems for the order fetch route -/

/-- Claim C6: a non-admin caller who does not own the queried order gets
the same NotFound response a missing order produces, never Forbidden and
never an existence hint; an admin fetching an existing order gets the full
sanitized body with the payer identity and the stored paymentResult, and a
non-admin 200 never carries either. -/
theorem order_view_masking
    (users : List DbUser) (orders : List Order) (s : SessionUser)
    (u : DbUser) (qid : String)
    (hq : isValidObjectId qid = true)
    (hu : findById users s._id = some u) :
    (u.isAdmin = false →
      orders.find? (fun o => (o._id == qid) && (o.user == s._id)) = none →
      getOrderHandler users orders (some s) qid ("GET")
          = .notFound ("Order not found or access denied")
        ∧ getOrderHandler users
            (orders.filter (fun o => !(o._id == qid))) (some s) qid ("GET")
          = .notFound ("Order not found or access denied"))
    ∧ (u.isAdmin = true →
        ∀ order owner, orders.find? (fun o => o._id == qid) = some order →
        findById users order.user = some owner →
        getOrderHandler users orders (some s) qid ("GET")
            = .ok (sanitizeOrderResponse order (some owner) true)
          ∧ (sanitizeOrderResponse order (some owner) true).payer
              = some (owner._id, owner.name, owner.email)
          ∧ (sanitizeOrderResponse order (some owner) true).paymentResult
              = order.paymentResult)
    ∧ (u.isAdmin = false →
        getOrderHandler users orders (some s) qid ("GET") ≠ .forbidden
        ∧ ∀ r, getOrderHandler users orders (some s) qid ("GET") = .ok r →
            r.payer = none ∧ r.paymentResult = none) := by
  refine ⟨?_, ?_, ?_⟩
  · intro hadm hnone
    have hnone2 : (orders.filter (fun o => !(o._id == qid))).find?
        (fun o => (o._id == qid) && (o.user == s._id)) = none := by
      rw [List.find?_eq_none]
      intro x hx
      have hxf := (List.mem_filter.mp hx).2
      simp only [Bool.not_eq_eq_eq_not, Bool.not_true] at hxf
      simp [hxf]
    constructor
    · simp [getOrderHandler, hu, hadm, hq, hnone]
    · simp [getOrderHandler, hu, hadm, hq, hnone2]
  · intro hadm order owner hfind howner
    refine ⟨?_, ?_, ?_⟩
    · simp [getOrderHandler, hu, hadm, hq, hfind, howner]
    · simp [sanitizeOrderResponse]
    · simp [sanitizeOrderResponse]
  · intro hadm
    constructor
    · cases hfind : orders.find?
          (fun o => (o._id == qid) && (o.user == s._id)) with
      | none => simp [getOrderHandler, hu, hadm, hq, hfind]
      | some order =>
        have hown : (order.user == s._id) = true :=
          (Bool.and_eq_true _ _ ▸ List.find?_some hfind).2
        cases howner : findById users order.user with
        | none => simp [getOrderHandler, hu, hadm, hq, hfind, howner]
        | some w => simp [getOrderHandler, hu, hadm, hq, hfind, howner, hown]
    · intro r hr
      rcases hfind : orders.find?
          (fun o => (o._id == qid) && (o.user == s._id)) with _ | order
      · rw [getOrderHandler] at hr
        simp [hu, hadm, hq, hfind] at hr
      · have hown : (order.user == s._id) = true :=
          (Bool.and_eq_true _ _ ▸ List.find?_some hfind).2
        rcases howner : findById users order.user with _ | w
        · rw [getOrderHandler] at hr
          simp [hu, hadm, hq, hfind, howner] at hr
        · rw [getOrderHandler] at hr
          simp [hu, hadm, hq, hfind, howner, hown] at hr
          rw [← hr]
          simp [sanitizeOrderResponse, hadm]

/-- Concrete instance of the masking theorem: a non-owner non-admin caller
fetching the stored paid order. -/
theorem order_view_masking_witness :
    (viewCaller.isAdmin = false →
      [viewOrder].find? (fun o => (o._id == ("bbbbbbbbbbbbbbbbbbbbbbbb"))
          && (o.user == ({ _id := ("u1"), isAdmin := false } : SessionUser)._id)) = none →
      getOrderHandler [viewCaller, viewOwner] [viewOrder]
          (some { _id := ("u1"), isAdmin := false })
          ("bbbbbbbbbbbbbbbbbbbbbbbb") ("GET")
          = .notFound ("Order not found or access denied")
        ∧ getOrderHandler [viewCaller, viewOwner]
            ([viewOrder].filter
              (fun o => !(o._id == ("bbbbbbbbbbbbbbbbbbbbbbbb"))))
            (some { _id := ("u1"), isAdmin := false })
            ("bbbbbbbbbbbbbbbbbbbbbbbb") ("GET")
          = .notFound ("Order not found or access denied"))
    ∧ (viewCaller.isAdmin = true →
        ∀ order owner,
        [viewOrder].find?
            (fun o => o._id == ("bbbbbbbbbbbbbbbbbbbbbbbb")) = some order →
        findById [viewCaller, viewOwner] order.user = some owner →
        getOrderHandler [viewCaller, viewOwner] [viewOrder]
            (some { _id := ("u1"), isAdmin := false })
            ("bbbbbbbbbbbbbbbbbbbbbbbb") ("GET")
            = .ok (sanitizeOrderResponse order (some owner) true)
          ∧ (sanitizeOrderResponse order (some owner) true).payer
              = some (owner._id, owner.name, owner.email)
          ∧ (sanitizeOrderResponse order (some owner) true).paymentResult
              = order.paymentResult)
    ∧ (viewCaller.isAdmin = false →
        getOrderHandler [viewCaller, viewOwner] [viewOrder]
            (some { _id := ("u1"), isAdmin := false })
            ("bbbbbbbbbbbbbbbbbbbbbbbb") ("GET") ≠ .forbidden
        ∧ ∀ r, getOrderHandler [viewCaller, viewOwner] [viewOrder]
            (some { _id := ("u1"), isAdmin := false })
            ("bbbbbbbbbbbbbbbbbbbbbbbb") ("GET") = .ok r →
            r.payer = none ∧ r.paymentResult = none) :=
  order_view_masking [viewCaller, viewOwner] [viewOrder]
    { _id := ("u1"), isAdmin := false } viewCaller
    ("bbbbbbbbbbbbbbbbbbbbbbbb") (by decide) (by decide)

/-! ## Claim theorems for the payment settlement worker -/

/-- Claim C3 (amended): a payment whose amount differs from the stored
total by more than the 0.01 tolerance is rejected with a validation
failure, no security event, and the stored orders unchanged, so the stored
total is never overridden; an exact amount of 230.00 against a 230.00
order settles. An amount differing by exactly the tolerance, such as
229.99 against 230.00, is within the as-implemented tolerance test and is
accepted, as the counterexample records. -/
theorem pay_amount_mismatch_rejected
    (users : List DbUser) (orders : List Order) (s : SessionUser)
    (qid : String) (body : PayBody) (now : Int) (u : DbUser) (order : Order)
    (a : ℚ)
    (hq : isValidObjectId qid = true)
    (hu : findById users s._id = some u)
    (hfind : orders.find? (fun o => (o._id == qid) && (o.user == s._id))
      = some order)
    (hnp : order.isPaid = false)
    (hnc : (order.status == "cancelled") = false)
    (hnexp : decide (86400000 < now - order.createdAt) = false)
    (ha : body.amount = some a)
    (hfar : (1 / 100 : ℚ) < |a - order.totalPrice|) :
    (validatePaymentData body order.totalPrice).isValid = false
    ∧ ("Payment amount mismatch")
        ∈ (validatePaymentData body order.totalPrice).errors
    ∧ payOrderHandler users orders (some s) qid body now ("PUT")
        = ⟨.validationFailed (validatePaymentData body order.totalPrice).errors,
           orders, []⟩ := by
  have hdec : decide ((1 / 100 : ℚ) < |a - order.totalPrice|) = true :=
    decide_eq_true hfar
  have hmem : ("Payment amount mismatch")
      ∈ (validatePaymentData body order.totalPrice).errors := by
    simp [validatePaymentData, ha, hdec]
    exact Or.inr (Or.inr (Or.inr (by simpa using hfar)))
  have hval : (validatePaymentData body order.totalPrice).isValid = false := by
    have hproj : (validatePaymentData body order.totalPrice).isValid
        = (validatePaymentData body order.totalPrice).errors.isEmpty := rfl
    cases herr : (validatePaymentData body order.totalPrice).errors with
    | nil => exact absurd (herr ▸ hmem) (List.not_mem_nil _)
    | cons x l => rw [hproj, herr]; rfl
  refine ⟨hval, hmem, ?_⟩
  rw [payOrderHandler]
  simp [hq, hu, hfind, hnp, hnc, hnexp, hval]

/-- Concrete instance of the mismatch theorem: 232.00 against a 230.00
order is rejected with the orders unchanged, and 230.00 settles. -/
theorem pay_amount_mismatch_rejected_witness :
    ((validatePaymentData (goodPayBody 232) payTarget.totalPrice).isValid
        = false
      ∧ ("Payment amount mismatch")
          ∈ (validatePaymentData (goodPayBody 232) payTarget.totalPrice).errors
      ∧ payOrderHandler [payUser] [payTarget]
          (some { _id := ("u9"), isAdmin := false })
          ("cccccccccccccccccccccccc") (goodPayBody 232) 1000 ("PUT")
          = ⟨.validationFailed
              (validatePaymentData (goodPayBody 232) payTarget.totalPrice).errors,
             [payTarget], []⟩)
    ∧ (payOrderHandler [payUser] [payTarget]
        (some { _id := ("u9"), isAdmin := false })
        ("cccccccccccccccccccccccc") (goodPayBody 230) 1000 ("PUT")).outcome
        = .paid ("cccccccccccccccccccccccc") 230 ("TX1234567890") :=
  ⟨pay_amount_mismatch_rejected [payUser] [payTarget]
    { _id := ("u9"), isAdmin := false } ("cccccccccccccccccccccccc")
    (goodPayBody 232) 1000 payUser payTarget 232
    (by decide) (by decide) (by rfl) (by rfl) (by rfl) (by rfl) (by rfl)
    (by norm_num [payTarget]),
   by norm_num +decide [payOrderHandler, payUser, payTarget, goodPayBody,
     findById, isValidObjectId, isHexDigit, validatePaymentData, emailOk,
     jsTrim, jsToLower, splitChar]⟩

/-- Updating one stored order with a payment id no other order carries
keeps the uniqueness invariant. -/
theorem paymentIdsOk_update (orders : List Order) (order upd : Order)
    (hupd_id : upd._id = order._id)
    (hupd_pr : ∀ p, upd.paymentResult = some p →
        ∀ b, b ∈ orders → b._id ≠ order._id →
        ∀ p2, b.paymentResult = some p2 → p2.id ≠ p.id)
    (hinv : paymentIdsOk orders) :
    paymentIdsOk (orders.map (fun o2 =>
      if o2._id == order._id then upd else o2)) := by
  obtain ⟨hnod, hdist⟩ := hinv
  have hf : ∀ x ∈ orders,
      ((fun o2 => if o2._id == order._id then upd else o2) x)._id = x._id := by
    intro x hx
    by_cases hc : (x._id == order._id) = true
    · simp only [hc, if_true]
      rw [hupd_id]
      exact (eq_of_beq hc).symm
    · simp [hc]
  constructor
  · have hmapeq : List.map ((fun o => o._id) ∘ fun o2 =>
        if o2._id == order._id then upd else o2) orders
        = List.map (fun o => o._id) orders := List.map_congr_left hf
    rw [List.map_map, hmapeq]
    exact hnod
  · intro o1 h1 o2 h2 p1 p2 hp1 hp2 hne
    obtain ⟨a, ha, rfl⟩ := List.mem_map.mp h1
    obtain ⟨b, hb, rfl⟩ := List.mem_map.mp h2
    by_cases hca : (a._id == order._id) = true
      <;> by_cases hcb : (b._id == order._id) = true
    · exfalso
      apply hne
      rw [hf a ha, hf b hb, eq_of_beq hca, eq_of_beq hcb]
    · simp only [hca, if_true] at hp1
      simp only [hcb, Bool.false_eq_true, if_false] at hp2
      have hbne : b._id ≠ order._id := by
        intro hEq
        exact hcb (by simp [hEq])
      exact (hupd_pr p1 hp1 b hb hbne p2 hp2).symm
    · simp only [hca, Bool.false_eq_true, if_false] at hp1
      simp only [hcb, if_true] at hp2
      have hane : a._id ≠ order._id := by
        intro hEq
        exact hca (by simp [hEq])
      exact hupd_pr p2 hp2 a ha hane p1 hp1
    · simp only [hca, Bool.false_eq_true, if_false] at hp1
      simp only [hcb, Bool.false_eq_true, if_false] at hp2
      have hfa : (if (a._id == order._id) = true then upd else a) = a := by
        simp [hca]
      have hfb : (if (b._id == order._id) = true then upd else b) = b := by
        simp [hcb]
      rw [hfa, hfb] at hne
      exact hdist a ha b hb p1 p2 hp1 hp2 hne

/-- Claim C4: the payment settlement keeps paymentResult ids unique across
distinct orders; when the submitted transaction id is already carried by
another order, the request is rejected with the duplicate outcome, a
security violation audit event distinct from ordinary validation failures,
and the stored orders unchanged, so the target order remains unpaid. -/
theorem pay_preserves_payment_id_uniqueness
    (users : List DbUser) (orders : List Order) (session : Option SessionUser)
    (qid : String) (body : PayBody) (now : Int) (method : String)
    (hinv : paymentIdsOk orders) :
    paymentIdsOk
      (payOrderHandler users orders session qid body now method).orders
    ∧ (∀ s u order o2,
        session = some s →
        method = "PUT" →
        isValidObjectId qid = true →
        findById users s._id = some u →
        orders.find? (fun o => (o._id == qid) && (o.user == s._id))
          = some order →
        order.isPaid = false →
        (order.status == "cancelled") = false →
        (decide (86400000 < now - order.createdAt) && !order.isPaid) = false →
        (validatePaymentData body order.totalPrice).isValid = true →
        orders.find? (fun x =>
            (match x.paymentResult with
             | some pr => pr.id
                 == (validatePaymentData body order.totalPrice).data.id.getD ""
             | none => false) && !(x._id == order._id)) = some o2 →
        payOrderHandler users orders session qid body now method
          = ⟨.duplicateTransaction, orders,
             [("duplicate_payment_attempt")]⟩) := by
  constructor
  · simp only [payOrderHandler]
    split
    · exact hinv
    · split
      · exact hinv
      · split
        · exact hinv
        · split
          · exact hinv
          · split
            · exact hinv
            · rename_i order hfind
              split
              · exact hinv
              · split
                · exact hinv
                · split
                  · exact hinv
                  · split
                    · exact hinv
                    · split
                      · exact hinv
                      · rename_i hdup
                        refine paymentIdsOk_update orders order _ rfl ?_ hinv
                        intro p hp b hb hbne p2 hp2
                        simp only [Option.some.injEq] at hp
                        have hnb := List.find?_eq_none.mp hdup b hb
                        simp only [hp2] at hnb
                        have hbid : (b._id == order._id) = false := by
                          cases hb2 : (b._id == order._id) with
                          | false => rfl
                          | true => exact absurd (eq_of_beq hb2) hbne
                        simp only [hbid, Bool.not_false, Bool.and_true,
                          Bool.not_eq_true] at hnb
                        cases hp
                        intro hEq
                        simp only [hEq] at hnb
                        simp at hnb
  · intro s u order o2 hsess hmeth hq hu hfind hnp hnc hnexp hval hdup
    subst hsess hmeth
    have hnexp2 : ¬(86400000 < now - order.createdAt) := by
      rw [hnp] at hnexp
      simp only [Bool.not_false, Bool.and_true] at hnexp
      exact of_decide_eq_false hnexp
    rw [payOrderHandler]
    simp [hq, hu, hfind, hnp, hnc, hnexp2, hval, hdup]

/-- Concrete instance of the uniqueness theorem at the stored pay order. -/
theorem pay_preserves_payment_id_uniqueness_witness :
    paymentIdsOk
      ((payOrderHandler [payUser] [payTarget]
        (some { _id := ("u9"), isAdmin := false })
        ("cccccccccccccccccccccccc") (goodPayBody 230) 1000 ("PUT")).orders) :=
  (pay_preserves_payment_id_uniqueness [payUser] [payTarget]
    (some { _id := ("u9"), isAdmin := false }) ("cccccccccccccccccccccccc")
    (goodPayBody 230) 1000 ("PUT")
    (by
      refine ⟨by simp, ?_⟩
      intro o1 h1 o2 h2 p1 p2 hp1 hp2 hne
      simp only [List.mem_singleton] at h1 h2
      subst h1 h2
      exact absurd rfl hne)).1

/-- Claim C3 counterexample: the claim requires a submitted amount of
229.99 against a 230.00 total to be rejected; the embedded handler accepts
it and settles the order, because the difference equals the tolerance
instead of exceeding it. -/
theorem pay_boundary_amount_accepted :
    (payOrderHandler [payUser] [payTarget]
        (some { _id := ("u9"), isAdmin := false })
        ("cccccccccccccccccccccccc") (goodPayBody (22999 / 100)) 1000
        ("PUT")).outcome
      = .paid ("cccccccccccccccccccccccc") 230 ("TX1234567890") := by
  norm_num +decide [payOrderHandler, payUser, payTarget, goodPayBody,
    findById, isValidObjectId, isHexDigit, validatePaymentData, emailOk,
    jsTrim, jsToLower, splitChar, abs_of_pos, abs_of_nonpos]

end MyShop
